import Mathlib

/-!
Verification of the pdfo repository: a PDF-compression CLI (`src/pdfo.py`)
and a version-bump script (`src/scripts/bump_version.py`).

The Python code is shallowly embedded: pure logic (quality presets, command
construction, version parsing and bumping, regex line matching) is translated
directly; external effects (filesystem, the Ghostscript subprocess, the pypdf
library pipeline) are abstracted as oracle fields of an environment record,
and the dispatcher's observable behaviour is a result record carrying the
outcome, the list of performed effects and the process exit code.
-/

set_option linter.unusedVariables false

namespace Pdfo

/-- Model of `pathlib.Path` restricted to what `pdfo.py` uses: the directory
part, the stem and the suffix (extension, empty or starting with a dot);
`name = stem ++ suffix`. Mirrors `input_file.parent`, `input_file.stem`,
`input_file.suffix` at src/pdfo.py lines 113 and 118. -/
structure FilePath where
  parent : String
  stem : String
  suffix : String
deriving DecidableEq, Repr

/-- Rendering of a path back to a string, as `str(path)` /
f-string interpolation does at src/pdfo.py line 40–41. -/
def FilePath.render (p : FilePath) : String :=
  p.parent ++ "/" ++ p.stem ++ p.suffix

/-- Lower-casing of a character list, one character at a time. -/
def lowerChars : List Char → List Char
  | [] => []
  | c :: cs => Char.toLower c :: lowerChars cs

/-- ASCII lower-casing, the behaviour of Python `str.lower()` on the
ASCII extensions compared against `".pdf"` at src/pdfo.py line 113. -/
def strLower (s : String) : String :=
  String.mk (lowerChars s.data)

/-- The quality-preset table of `compress_with_ghostscript`,
src/pdfo.py lines 17–22: 1 → printer (300 DPI), 2 → ebook (150 DPI),
3 → screen (72 DPI), 4 → screen (72 DPI). -/
def quality_settings : List (Int × String) :=
  [(1, "printer"), (2, "ebook"), (3, "screen"), (4, "screen")]

/-- `preset = quality_settings.get(quality, "ebook")`, src/pdfo.py line 24. -/
def gsPreset (quality : Int) : String :=
  ((quality_settings.lookup quality).getD "ebook")

/-- The numeric part of the `-dColorImageResolution` flag,
src/pdfo.py line 39: 150 when `quality >= 3`, else 200. -/
def colorImageResolution (quality : Int) : Int :=
  if quality ≥ 3 then 150 else 200

/-- The Ghostscript command line built at src/pdfo.py lines 26–42. -/
def ghostscriptCmd (quality : Int) (input_path output_path : FilePath) : List String :=
  [ "gs",
    "-sDEVICE=pdfwrite",
    "-dCompatibilityLevel=1.4",
    "-dPDFSETTINGS=/" ++ gsPreset quality,
    "-dNOPAUSE",
    "-dQUIET",
    "-dBATCH",
    "-dDetectDuplicateImages=true",
    "-dCompressFonts=true",
    "-dDownsampleColorImages=true",
    "-dDownsampleGrayImages=true",
    "-dDownsampleMonoImages=true",
    "-dColorImageResolution=" ++ toString (colorImageResolution quality),
    "-sOutputFile=" ++ output_path.render,
    input_path.render ]

/-- Observable side effects of one dispatcher run: which backend was invoked
(with the full command line for Ghostscript) and which path was written. -/
inductive Effect
  | ranGhostscript (cmd : List String)
  | ranPypdf
  | wrote (p : FilePath)
deriving DecidableEq, Repr

/-- True exactly on the two backend-invocation effects. -/
def Effect.isBackendRun : Effect → Bool
  | .ranGhostscript _ => true
  | .ranPypdf => true
  | .wrote _ => false

/-- True exactly on the Ghostscript-invocation effect. -/
def Effect.isGsRun : Effect → Bool
  | .ranGhostscript _ => true
  | _ => false

/-- True exactly on the pypdf-invocation effect. -/
def Effect.isPypdfRun : Effect → Bool
  | .ranPypdf => true
  | _ => false

/-- The ways a run of `main` (src/pdfo.py lines 93–150) terminates
unsuccessfully. `invalidInput` is the wrong-extension exit (line 115),
`outputExists` the overwrite-guard exit (line 122), `backendError` carries a
backend exception message caught at line 148, and `divisionByZero` is the
Python `ZeroDivisionError` raised by line 141 when the input size is zero,
likewise caught by the generic handler at line 148. The code has no
distinct error kind for a zero-byte input. -/
inductive ErrKind
  | invalidInput
  | outputExists
  | backendError (msg : String)
  | divisionByZero
deriving DecidableEq, Repr

/-- Outcome of a run: success with the reported percentage reduction
(line 141, modelled over ℚ), or one of the failures. -/
inductive Outcome
  | success (reduction : ℚ)
  | failure (kind : ErrKind)
deriving DecidableEq, Repr

/-- What one invocation of the CLI produces: its outcome, the effects it
performed in order, and the process exit code. -/
structure RunResult where
  outcome : Outcome
  effects : List Effect
  exit : Nat
deriving DecidableEq, Repr

/-- The host environment seen by one invocation: whether `gs --version`
succeeds (`has_ghostscript`, src/pdfo.py lines 78–84), file existence and
sizes (`Path.exists`, `Path.stat().st_size`), the result of running a
Ghostscript command (`.ok ()` for exit status 0, `.error stderr`
otherwise, src/pdfo.py lines 44–47), and whether the pypdf read/write
pipeline succeeds on a given input (src/pdfo.py lines 57–70). Sizes are the
values `stat` reports after the backend ran. -/
structure Env where
  gsAvailable : Bool
  fileExists : FilePath → Bool
  fileSize : FilePath → Nat
  runGs : List String → Except String Unit
  pypdfOk : FilePath → Except String Unit

/-- `compress_with_ghostscript`, src/pdfo.py lines 14–52: build the command,
run it, raise on non-zero exit status, else stat and return
`(input_size, output_size)`. The returned effects record the subprocess
invocation and, on success, the write of the output file. -/
def compress_with_ghostscript (env : Env) (input_path output_path : FilePath)
    (quality : Int) : List Effect × Except String (Nat × Nat) :=
  let cmd := ghostscriptCmd quality input_path output_path
  match env.runGs cmd with
  | .error stderr =>
      ([.ranGhostscript cmd], .error ("Ghostscript failed: " ++ stderr))
  | .ok _ =>
      ([.ranGhostscript cmd, .wrote output_path],
        .ok (env.fileSize input_path, env.fileSize output_path))

/-- Outcome-level model of `compress_with_pypdf`, src/pdfo.py lines 55–75:
the pypdf pipeline (read, copy pages, compress streams, clear metadata,
deduplicate objects, serialize) is abstracted by the `pypdfOk` oracle; on
success the output file is written and both sizes are read back. The
pipeline itself is embedded in detail in namespace `Pypdf` below. -/
def compress_with_pypdf_run (env : Env) (input_path output_path : FilePath)
    (quality : Int) : List Effect × Except String (Nat × Nat) :=
  match env.pypdfOk input_path with
  | .error e => ([.ranPypdf], .error e)
  | .ok _ =>
      ([.ranPypdf, .wrote output_path],
        .ok (env.fileSize input_path, env.fileSize output_path))

/-- Output-path resolution, src/pdfo.py lines 117–118: the given `-o` path,
or `<parent>/<stem>_compressed<suffix>` next to the input. -/
def resolveOutput (input_file : FilePath) : Option FilePath → FilePath
  | some o => o
  | none =>
      { parent := input_file.parent,
        stem := input_file.stem ++ "_compressed",
        suffix := input_file.suffix }

/-- Backend selection and execution, src/pdfo.py lines 124 and 136–139:
Ghostscript when `has_ghostscript() and not no_gs`, pypdf otherwise. -/
def selectedBackend (env : Env) (input_file output : FilePath) (quality : Int)
    (no_gs : Bool) : List Effect × Except String (Nat × Nat) :=
  if env.gsAvailable && !no_gs then
    compress_with_ghostscript env input_file output quality
  else
    compress_with_pypdf_run env input_file output quality

/-- The dispatcher `main`, src/pdfo.py lines 93–150: extension validation
(line 113), output resolution (lines 117–118), overwrite guard (lines
120–122), backend selection and execution (lines 124, 136–139), and the
percentage-reduction report (line 141). A `ZeroDivisionError` from line 141
is caught by the generic handler at lines 148–150 and exits 1. -/
def main (env : Env) (input_file : FilePath) (output : Option FilePath)
    (quality : Int) (force no_gs : Bool) : RunResult :=
  if ¬ (strLower input_file.suffix = ".pdf") then
    ⟨.failure .invalidInput, [], 1⟩
  else
    let out := resolveOutput input_file output
    if env.fileExists out && !force then
      ⟨.failure .outputExists, [], 1⟩
    else
      let input_size := env.fileSize input_file
      let res := selectedBackend env input_file out quality no_gs
      match res.2 with
      | .error e => ⟨.failure (.backendError e), res.1, 1⟩
      | .ok (_input_size_check, output_size) =>
          if input_size = 0 then
            ⟨.failure .divisionByZero, res.1, 1⟩
          else
            ⟨.success (((input_size : ℚ) - (output_size : ℚ)) /
                (input_size : ℚ) * 100), res.1, 0⟩

end Pdfo

namespace Pypdf

/-- Abstract interface of the pypdf library operations used by
`compress_with_pypdf` (src/pdfo.py lines 55–75), over abstract document and
page types: `PdfReader`, `reader.pages`, `page.compress_content_streams()`,
building a `PdfWriter` from a page list via `add_page`, `add_metadata({})`,
`compress_identical_objects(remove_identicals=True)` and `writer.write`.
The library is an external collaborator, so its operations are parameters,
not reimplementations. -/
structure PypdfLib (Doc Page : Type) where
  readPdf : List Nat → Except String Doc
  pagesOf : Doc → List Page
  compress_content_streams : Page → Page
  writerOf : List Page → Doc
  mapPages : Doc → (Page → Page) → Doc
  add_metadata_empty : Doc → Doc
  compress_identical_objects : Doc → Doc
  serialize : Doc → List Nat

/-- A filesystem as an association list from path to byte content. -/
def FS : Type := List (String × List Nat)

/-- Reading a file's bytes; an error when the path is absent. -/
def FS.readFile (fs : FS) (p : String) : Except String (List Nat) :=
  match List.lookup p fs with
  | some bs => Except.ok bs
  | none => Except.error ("No such file: " ++ p)

/-- Writing a file's bytes. -/
def FS.writeFile (fs : FS) (p : String) (bs : List Nat) : FS :=
  (p, bs) :: fs

/-- `compress_with_pypdf`, src/pdfo.py lines 55–75: read the input, copy
every page into a writer, compress each writer page's content streams,
clear the metadata, deduplicate identical objects, serialize to the output
path, and return the two byte sizes. The `quality` parameter is accepted
exactly as in the source signature (line 55). -/
def compress_with_pypdf {Doc Page : Type} (lib : PypdfLib Doc Page) (fs : FS)
    (input_path output_path : String) (quality : Int) :
    Except String (FS × Nat × Nat) := do
  let inBytes ← fs.readFile input_path
  let reader ← lib.readPdf inBytes
  let writer := lib.writerOf (lib.pagesOf reader)
  let writer := lib.mapPages writer lib.compress_content_streams
  let writer := lib.add_metadata_empty writer
  let writer := lib.compress_identical_objects writer
  let outBytes := lib.serialize writer
  pure (fs.writeFile output_path outBytes, inBytes.length, outBytes.length)

end Pypdf

namespace BumpScript

/-- Python `\s` on the ASCII whitespace characters: space, tab, newline,
carriage return, vertical tab, form feed. -/
def isPyWS (c : Char) : Bool :=
  c = ' ' || c = '\t' || c = '\n' || c = '\r' || c = '\x0b' || c = '\x0c'

/-- Strip an exact literal from the front of a character list, `none` when
it is not there. -/
def stripLit : List Char → List Char → Option (List Char)
  | [], cs => some cs
  | _ :: _, [] => none
  | l :: ls, c :: cs => if c = l then stripLit ls cs else none

/-- `\d+`: one or more leading digits and the rest, `none` when the list
does not start with a digit. (Greedy with no backtracking is exact here: in
the version pattern every `\d+` is followed by a non-digit character.) -/
def takeDigits1 (cs : List Char) : Option (List Char × List Char) :=
  let ds := cs.takeWhile Char.isDigit
  if ds.isEmpty then none else some (ds, cs.drop ds.length)

/-- The trailing `\s*$` of `VERSION_RE`, with Python's semantics on a
multiline string: the greedy `\s*` consumes as much whitespace as it can —
newlines included — and backtracks until `$` holds, that is, until the end
of the string or a position immediately before a newline. Returns the
unconsumed tail, `none` when `$` cannot be met. Consequence: whitespace-only
lines directly after the matched line are consumed into the match span. -/
def matchWSEnd : List Char → Option (List Char)
  | [] => some []
  | c :: cs =>
      if isPyWS c then
        match matchWSEnd cs with
        | some r => some r
        | none => if c = '\n' then some (c :: cs) else none
      else
        if c = '\n' then some (c :: cs) else none

/-- The body `version\s*=\s*"(\d+\.\d+\.\d+)"\s*$` of `VERSION_RE`
(src/scripts/bump_version.py line 10) matched at the current position:
returns the captured `X.Y.Z` group and the text remaining after the whole
match span. The inner `\s*` and `\d+` need no backtracking, since each is
followed by a character its class excludes; the trailing `\s*$` backtracks
via `matchWSEnd`. -/
def matchBodyAt (cs : List Char) : Option (String × List Char) := do
  let cs ← stripLit "version".data cs
  let cs := cs.dropWhile isPyWS
  let cs ← stripLit "=".data cs
  let cs := cs.dropWhile isPyWS
  let cs ← stripLit "\"".data cs
  let (d1, cs) ← takeDigits1 cs
  let cs ← stripLit ".".data cs
  let (d2, cs) ← takeDigits1 cs
  let cs ← stripLit ".".data cs
  let (d3, cs) ← takeDigits1 cs
  let cs ← stripLit "\"".data cs
  let rest ← matchWSEnd cs
  some (String.mk (d1 ++ '.' :: d2 ++ '.' :: d3), rest)

/-- Leftmost-match scan for `VERSION_RE` over the whole text: the body is
tried at every position that starts a line (the `(?m)` `^` anchor),
advancing one character at a time as the regex engine does. `acc` holds the
already-scanned prefix reversed; `atStart` says whether the current
position starts a line. Returns the prefix before the match, the captured
version, and the tail after the match span. -/
def findVersionAux : List Char → Bool → List Char → Option (List Char × String × List Char)
  | acc, atStart, [] =>
      if atStart then
        match matchBodyAt [] with
        | some (v, rest) => some (acc.reverse, v, rest)
        | none => none
      else none
  | acc, atStart, c :: cs =>
      match (if atStart then matchBodyAt (c :: cs) else none) with
      | some (v, rest) => some (acc.reverse, v, rest)
      | none => findVersionAux (c :: acc) (c == '\n') cs

/-- The first (leftmost) match of `VERSION_RE` in the text, as found by
`VERSION_RE.search` (line 30) and replaced by `VERSION_RE.subn` with
`count=1` (line 38). -/
def findVersionMatch (text : List Char) : Option (List Char × String × List Char) :=
  findVersionAux [] true text

/-- Helper for `pySplitDot`: accumulate the current component (reversed). -/
def splitDotAux : List Char → List Char → List String
  | [], acc => [String.mk acc.reverse]
  | c :: cs, acc =>
      if c = '.' then String.mk acc.reverse :: splitDotAux cs []
      else splitDotAux cs (c :: acc)

/-- Python `version.split(".")` (src/scripts/bump_version.py line 14):
split on every dot, keeping empty components. -/
def pySplitDot (s : String) : List String :=
  splitDotAux s.data []

/-- Value of a digit string, `none` on a non-digit. -/
def digitsVal : ℕ → List Char → Option ℕ
  | acc, [] => some acc
  | acc, c :: cs =>
      if c.isDigit then digitsVal (acc * 10 + (c.toNat - 48)) cs else none

/-- Python `int(x)` on the digit strings produced by the version regex
(src/scripts/bump_version.py line 14): the numeric value of a non-empty
digit string, `none` (a raised `ValueError`) otherwise. -/
def pyInt (s : String) : Option ℕ :=
  if s.data.isEmpty then none else digitsVal 0 s.data

/-- `bump_version`, src/scripts/bump_version.py lines 13–26: split the
version on dots into three integers, increment the requested component,
reset the lower components to zero, and format the result; unknown bump
types raise `ValueError`. -/
def bump_version (version : String) (bump : String) : Except String String :=
  match (pySplitDot version).map pyInt with
  | [some major, some minor, some patch] =>
      if bump = "major" then
        Except.ok (toString (major + 1) ++ ".0.0")
      else if bump = "minor" then
        Except.ok (toString major ++ "." ++ toString (minor + 1) ++ ".0")
      else if bump = "patch" then
        Except.ok (toString major ++ "." ++ toString minor ++ "." ++
          toString (patch + 1))
      else Except.error ("Unknown bump type: " ++ bump)
  | _ => Except.error "could not unpack three integer components"

/-- `read_version`, src/scripts/bump_version.py lines 29–33:
`VERSION_RE.search(text)`, yielding the first match's captured version; an
error (`ValueError`) when the pattern matches nowhere in the text. -/
def read_version (text : String) : Except String String :=
  match findVersionMatch text.data with
  | some (_, v, _) => Except.ok v
  | none => Except.error "Could not find version in pyproject.toml"

/-- The substitution `VERSION_RE.subn(replacement, text, count=1)` of
src/scripts/bump_version.py line 38: replace the first match's whole span —
which, through the trailing `\s*`, also covers whitespace-only lines
directly after the version line, so those disappear from the text — by
`version = "new"`, and return the rewritten text with the number of
replacements performed (0 or 1). -/
def substVersion (new_version : String) (text : String) : String × Nat :=
  match findVersionMatch text.data with
  | some (pre, _, rest) =>
      (String.mk (pre ++ ("version = \"" ++ new_version ++ "\"").data ++ rest), 1)
  | none => (text, 0)

/-- `write_version`, src/scripts/bump_version.py lines 36–41: substitute
and fail (before writing anything) when the count is not exactly one;
returns the rewritten file content. -/
def write_version (text : String) (new_version : String) :
    Except String String :=
  let r := substVersion new_version text
  if r.2 = 1 then Except.ok r.1
  else Except.error "Failed to update version in pyproject.toml"

/-- Observable result of one run of the bump script: the manifest's content
after the run, what was printed to stdout, and the process exit code. -/
structure ScriptResult where
  newText : String
  printed : Option String
  exit : Nat
deriving DecidableEq, Repr

/-- The script's `main`, src/scripts/bump_version.py lines 44–65, after
argument parsing: `bump` is the `--bump` choice and `current` the
`--current` flag. An unhandled `ValueError` (version not found, bad bump
type, failed substitution) and the `SystemExit` raised when `--bump` is
missing all terminate the process with a non-zero exit code, leaving the
file untouched; otherwise the new version (or, under `--current`, the
current one) is printed and the process exits 0. -/
def script_main (text : String) (bump : Option String) (current : Bool) :
    ScriptResult :=
  match read_version text with
  | Except.error _ => ⟨text, none, 1⟩
  | Except.ok cur =>
      if current then ⟨text, some cur, 0⟩
      else
        match bump with
        | none => ⟨text, none, 1⟩
        | some b =>
            match bump_version cur b with
            | Except.error _ => ⟨text, none, 1⟩
            | Except.ok new_version =>
                match write_version text new_version with
                | Except.error _ => ⟨text, none, 1⟩
                | Except.ok newText => ⟨newText, some new_version, 0⟩

end BumpScript

/-- Claim C1 (amended): the Ghostscript quality mapping uses three named
presets, not two: level 1 maps to "printer", level 2 to "ebook", and levels
3 and 4 share "screen"; the image-resolution parameter is lower for levels
3 and 4 (150) than for levels 1 and 2 (200). -/
theorem C1_three_presets :
    Pdfo.gsPreset 1 = "printer" ∧ Pdfo.gsPreset 2 = "ebook" ∧
    Pdfo.gsPreset 3 = "screen" ∧ Pdfo.gsPreset 4 = "screen" ∧
    Pdfo.colorImageResolution 3 < Pdfo.colorImageResolution 1 ∧
    Pdfo.colorImageResolution 3 < Pdfo.colorImageResolution 2 ∧
    Pdfo.colorImageResolution 4 < Pdfo.colorImageResolution 1 ∧
    Pdfo.colorImageResolution 4 < Pdfo.colorImageResolution 2 := by
  decide

/-- Claim C1 counterexample: levels 2 and 3 do not map to one shared
reduced-fidelity preset, so the mapping does not use exactly two named
presets as the claim states. -/
theorem C1_counterexample : Pdfo.gsPreset 2 ≠ Pdfo.gsPreset 3 := by
  decide

/-- Claim C2 (amended): every quality level outside {1,2,3,4} silently falls
back to the level-2 preset "ebook" (no validation error), but the
image-resolution parameter is computed independently by the `quality >= 3`
test: out-of-range levels below 3 get level 2's resolution, while
out-of-range levels of 3 or more (such as 5) get 150 instead of 200. -/
theorem C2_fallback_preset (q : Int)
    (h1 : q ≠ 1) (h2 : q ≠ 2) (h3 : q ≠ 3) (h4 : q ≠ 4) :
    Pdfo.gsPreset q = Pdfo.gsPreset 2 ∧
    Pdfo.colorImageResolution q = (if q ≥ 3 then 150 else 200) := by
  constructor
  · simp only [Pdfo.gsPreset, Pdfo.quality_settings, List.lookup,
      beq_eq_false_iff_ne.mpr h1, beq_eq_false_iff_ne.mpr h2,
      beq_eq_false_iff_ne.mpr h3, beq_eq_false_iff_ne.mpr h4]
    rfl
  · rfl

/-- Claim C2 witness: quality 5 is outside {1,2,3,4}; it falls back to the
level-2 preset with resolution 150. -/
theorem C2_fallback_preset_witness :
    Pdfo.gsPreset 5 = Pdfo.gsPreset 2 ∧
    Pdfo.colorImageResolution 5 = (if (5 : Int) ≥ 3 then 150 else 200) :=
  C2_fallback_preset 5 (by decide) (by decide) (by decide) (by decide)

/-- Claim C2 counterexample: at quality 5 the preset equals the level-2
preset but the image-resolution parameter differs from level 2's, so the
backend does not behave exactly as it does for level 2. -/
theorem C2_counterexample :
    Pdfo.gsPreset 5 = Pdfo.gsPreset 2 ∧
    Pdfo.colorImageResolution 5 ≠ Pdfo.colorImageResolution 2 := by
  decide

/-- An environment describing a host with Ghostscript, a zero-byte input
file, no pre-existing output, and backends that succeed. -/
def c3Env : Pdfo.Env :=
  { gsAvailable := true,
    fileExists := fun _ => false,
    fileSize := fun _ => 0,
    runGs := fun _ => Except.ok (),
    pypdfOk := fun _ => Except.ok () }

/-- The zero-byte input file of the C3 scenario. -/
def c3Input : Pdfo.FilePath := ⟨".", "empty", ".pdf"⟩

/-- Claim C3 (code bug): on a zero-byte input whose compression succeeds,
the dispatcher does not fail with a distinct zero-byte-input error; line 141
of src/pdfo.py divides by the input size and raises `ZeroDivisionError`,
which the generic handler turns into a generic error exit. The `ErrKind`
type, an exhaustive model of the code's failure exits, has no zero-byte-input
kind at all. -/
theorem C3_zero_input_divides :
    (Pdfo.main c3Env c3Input none 2 false false).outcome =
      Pdfo.Outcome.failure Pdfo.ErrKind.divisionByZero ∧
    (Pdfo.main c3Env c3Input none 2 false false).exit = 1 :=
  ⟨rfl, rfl⟩

/-- Claim C4: for every successful compression, with either backend, the
reported reduction is exactly `(input_size - output_size) / input_size * 100`
over the exact rationals, where `input_size` is the input file's byte size
and `output_size` the returned output byte size. -/
theorem C4_reported_reduction (env : Pdfo.Env) (input_file : Pdfo.FilePath)
    (output : Option Pdfo.FilePath) (quality : Int) (force no_gs : Bool)
    (k m : Nat)
    (hval : Pdfo.strLower input_file.suffix = ".pdf")
    (hguard : (env.fileExists (Pdfo.resolveOutput input_file output) && !force) = false)
    (hbackend : (Pdfo.selectedBackend env input_file
        (Pdfo.resolveOutput input_file output) quality no_gs).2 = Except.ok (k, m))
    (hnz : env.fileSize input_file ≠ 0) :
    (Pdfo.main env input_file output quality force no_gs).outcome =
      Pdfo.Outcome.success (((env.fileSize input_file : ℚ) - (m : ℚ)) /
        (env.fileSize input_file : ℚ) * 100) := by
  unfold Pdfo.main
  simp only [hval, not_true_eq_false, if_false, hguard, Bool.false_eq_true, hbackend, hnz]

/-- The environment of the C4 witness: the input file has 100 bytes, the
produced output 150 bytes, so compression grows the file. -/
def c4Env : Pdfo.Env :=
  { gsAvailable := true,
    fileExists := fun _ => false,
    fileSize := fun p => if p.stem = "doc" then 100 else 150,
    runGs := fun _ => Except.ok (),
    pypdfOk := fun _ => Except.ok () }

/-- The input file of the C4 witness. -/
def c4Input : Pdfo.FilePath := ⟨".", "doc", ".pdf"⟩

/-- Claim C4 witness: at a concrete run where the output (150 bytes) is
larger than the input (100 bytes) the reported reduction is the formula's
value, and that value is negative. -/
theorem C4_reported_reduction_witness :
    (Pdfo.main c4Env c4Input none 2 false false).outcome =
      Pdfo.Outcome.success (((c4Env.fileSize c4Input : ℚ) - (150 : ℚ)) /
        (c4Env.fileSize c4Input : ℚ) * 100) ∧
    (((c4Env.fileSize c4Input : ℚ) - (150 : ℚ)) /
        (c4Env.fileSize c4Input : ℚ) * 100) < 0 := by
  refine ⟨C4_reported_reduction c4Env c4Input none 2 false false 100 150 rfl rfl rfl
    (by decide), ?_⟩
  show (((100 : ℚ) - 150) / 100 * 100) < 0
  norm_num

/-- Claim C5: when the resolved output path exists and the force flag is
off, the run fails with the output-exists error, exits 1, and performs no
effect at all: no backend is invoked and no path is written. -/
theorem C5_overwrite_guard (env : Pdfo.Env) (input_file : Pdfo.FilePath)
    (output : Option Pdfo.FilePath) (quality : Int) (no_gs : Bool)
    (hval : Pdfo.strLower input_file.suffix = ".pdf")
    (hex : env.fileExists (Pdfo.resolveOutput input_file output) = true) :
    Pdfo.main env input_file output quality false no_gs =
      ⟨Pdfo.Outcome.failure Pdfo.ErrKind.outputExists, [], 1⟩ := by
  unfold Pdfo.main
  simp [hval, hex]

/-- The environment of the C5 witness: the default output path already
exists on disk. -/
def c5Env : Pdfo.Env :=
  { gsAvailable := true,
    fileExists := fun p => p.stem == "doc_compressed",
    fileSize := fun _ => 100,
    runGs := fun _ => Except.ok (),
    pypdfOk := fun _ => Except.ok () }

/-- Claim C5 witness: a concrete run with an existing default output and no
force flag fails with the output-exists error and an empty effect list. -/
theorem C5_overwrite_guard_witness :
    Pdfo.main c5Env ⟨".", "doc", ".pdf"⟩ none 2 false false =
      ⟨Pdfo.Outcome.failure Pdfo.ErrKind.outputExists, [], 1⟩ :=
  C5_overwrite_guard c5Env ⟨".", "doc", ".pdf"⟩ none 2 false rfl rfl

/-- Claim C6: for every validated request (valid extension, overwrite guard
passed), the run performs exactly one backend invocation, and it is the
Ghostscript one precisely when the tool is available and `--no-gs` is not
set, the pypdf one otherwise. -/
theorem C6_backend_selection (env : Pdfo.Env) (input_file : Pdfo.FilePath)
    (output : Option Pdfo.FilePath) (quality : Int) (force no_gs : Bool)
    (hval : Pdfo.strLower input_file.suffix = ".pdf")
    (hguard : (env.fileExists (Pdfo.resolveOutput input_file output) && !force) = false) :
    (((Pdfo.main env input_file output quality force no_gs).effects.filter
        Pdfo.Effect.isBackendRun).length = 1) ∧
    ((Pdfo.main env input_file output quality force no_gs).effects.any
        Pdfo.Effect.isGsRun = (env.gsAvailable && !no_gs)) ∧
    ((Pdfo.main env input_file output quality force no_gs).effects.any
        Pdfo.Effect.isPypdfRun = !(env.gsAvailable && !no_gs)) := by
  have heff : (Pdfo.main env input_file output quality force no_gs).effects =
      (Pdfo.selectedBackend env input_file (Pdfo.resolveOutput input_file output)
        quality no_gs).1 := by
    unfold Pdfo.main
    simp only [hval, not_true_eq_false, if_false, hguard, Bool.false_eq_true]
    split
    · rfl
    · split <;> rfl
  refine ⟨?_, ?_, ?_⟩ <;> rw [heff] <;>
    unfold Pdfo.selectedBackend Pdfo.compress_with_ghostscript
      Pdfo.compress_with_pypdf_run <;>
    cases hgs : env.gsAvailable && !no_gs <;>
    simp only [Bool.false_eq_true, if_false, if_true] <;>
    split <;>
    simp [Pdfo.Effect.isBackendRun, Pdfo.Effect.isGsRun, Pdfo.Effect.isPypdfRun, hgs]

/-- The environment of the C6 witness: Ghostscript present, backends
succeed, nothing pre-exists. -/
def c6Env : Pdfo.Env :=
  { gsAvailable := true,
    fileExists := fun _ => false,
    fileSize := fun _ => 100,
    runGs := fun _ => Except.ok (),
    pypdfOk := fun _ => Except.ok () }

/-- Claim C6 witness: on a concrete validated run with Ghostscript present
and `--no-gs` unset, exactly one backend runs and it is Ghostscript. -/
theorem C6_backend_selection_witness :
    (((Pdfo.main c6Env ⟨".", "doc", ".pdf"⟩ none 2 false false).effects.filter
        Pdfo.Effect.isBackendRun).length = 1) ∧
    ((Pdfo.main c6Env ⟨".", "doc", ".pdf"⟩ none 2 false false).effects.any
        Pdfo.Effect.isGsRun = (c6Env.gsAvailable && !false)) ∧
    ((Pdfo.main c6Env ⟨".", "doc", ".pdf"⟩ none 2 false false).effects.any
        Pdfo.Effect.isPypdfRun = !(c6Env.gsAvailable && !false)) :=
  C6_backend_selection c6Env ⟨".", "doc", ".pdf"⟩ none 2 false false rfl rfl

/-- Claim C7: the extension check is case-insensitive and decisive: a run
fails with the invalid-input error exactly when the lower-cased suffix is
not ".pdf", and in that case it exits 1 having performed no effect (no
backend runs); when the lower-cased suffix is ".pdf" (including ".PDF"),
validation succeeds. -/
theorem C7_extension_validation (env : Pdfo.Env) (input_file : Pdfo.FilePath)
    (output : Option Pdfo.FilePath) (quality : Int) (force no_gs : Bool) :
    ((Pdfo.main env input_file output quality force no_gs).outcome =
        Pdfo.Outcome.failure Pdfo.ErrKind.invalidInput ↔
      Pdfo.strLower input_file.suffix ≠ ".pdf") ∧
    (Pdfo.strLower input_file.suffix ≠ ".pdf" →
      Pdfo.main env input_file output quality force no_gs =
        ⟨Pdfo.Outcome.failure Pdfo.ErrKind.invalidInput, [], 1⟩) := by
  by_cases hs : Pdfo.strLower input_file.suffix = ".pdf"
  · refine ⟨?_, fun hne => absurd hs hne⟩
    simp only [hs, ne_eq, not_true_eq_false, iff_false]
    unfold Pdfo.main
    simp only [hs, not_true_eq_false, if_false]
    split
    · simp
    · split
      · simp
      · split <;> simp
  · constructor
    · unfold Pdfo.main
      simp [hs]
    · intro _
      unfold Pdfo.main
      simp [hs]

/-- The environment of the C7 witness. -/
def c7Env : Pdfo.Env :=
  { gsAvailable := true,
    fileExists := fun _ => false,
    fileSize := fun _ => 100,
    runGs := fun _ => Except.ok (),
    pypdfOk := fun _ => Except.ok () }

/-- Claim C7 witness: an upper-case `.PDF` input passes validation, while a
`.txt` input fails with the invalid-input error, exit 1, and no effects. -/
theorem C7_extension_validation_witness :
    ¬ ((Pdfo.main c7Env ⟨".", "scan", ".PDF"⟩ none 2 false false).outcome =
        Pdfo.Outcome.failure Pdfo.ErrKind.invalidInput) ∧
    Pdfo.main c7Env ⟨".", "notes", ".txt"⟩ none 2 false false =
      ⟨Pdfo.Outcome.failure Pdfo.ErrKind.invalidInput, [], 1⟩ :=
  ⟨fun h => (C7_extension_validation c7Env ⟨".", "scan", ".PDF"⟩ none 2
      false false).1.mp h (by decide),
   (C7_extension_validation c7Env ⟨".", "notes", ".txt"⟩ none 2
      false false).2 (by decide)⟩

/-- The manifest of the bump-script witnesses: the version line is followed
by a blank line, the idiomatic pyproject.toml layout. -/
def manifestText : String :=
  "[project]\nversion = \"1.2.3\"\n\n[build-system]\n"

/-- Claim C8: for every manifest text whose first regex match carries a
version of the form X.Y.Z and every bump type among major, minor and patch,
the script increments the requested component and resets the lower ones to
zero, performs exactly one replacement in the manifest, prints exactly the
resulting version string and exits 0; and when the version pattern matches
nowhere, the script fails (no version found) leaving the manifest
unchanged. -/
theorem C8_version_bump :
    (∀ (text bt v : String) (a b c : ℕ),
      (bt = "major" ∨ bt = "minor" ∨ bt = "patch") →
      BumpScript.read_version text = Except.ok v →
      (BumpScript.pySplitDot v).map BumpScript.pyInt = [some a, some b, some c] →
      ∃ nv, BumpScript.bump_version v bt = Except.ok nv ∧
        nv = (if bt = "major" then toString (a + 1) ++ ".0.0"
          else if bt = "minor" then toString a ++ "." ++ toString (b + 1) ++ ".0"
          else toString a ++ "." ++ toString b ++ "." ++ toString (c + 1)) ∧
        (BumpScript.substVersion nv text).2 = 1 ∧
        BumpScript.script_main text (some bt) false =
          ⟨(BumpScript.substVersion nv text).1, some nv, 0⟩) ∧
    (∀ (text bt : String),
      BumpScript.findVersionMatch text.data = none →
      BumpScript.script_main text (some bt) false = ⟨text, none, 1⟩) := by
  constructor
  · intro text bt v a b c hbt hv hsplit
    obtain ⟨pre, rest, hfs⟩ : ∃ pre rest,
        BumpScript.findVersionMatch text.data = some (pre, v, rest) := by
      unfold BumpScript.read_version at hv
      cases hm : BumpScript.findVersionMatch text.data with
      | none => rw [hm] at hv; exact absurd hv (by simp)
      | some x =>
          obtain ⟨p, w, r⟩ := x
          rw [hm] at hv
          simp only [Except.ok.injEq] at hv
          subst hv
          exact ⟨p, r, rfl⟩
    have hbump : BumpScript.bump_version v bt = Except.ok
        (if bt = "major" then toString (a + 1) ++ ".0.0"
          else if bt = "minor" then toString a ++ "." ++ toString (b + 1) ++ ".0"
          else toString a ++ "." ++ toString b ++ "." ++ toString (c + 1)) := by
      unfold BumpScript.bump_version
      rw [hsplit]
      rcases hbt with h | h | h <;> subst h <;> simp
    refine ⟨_, hbump, rfl, ?_, ?_⟩
    · simp [BumpScript.substVersion, hfs]
    · simp [BumpScript.script_main, hv, hbump, BumpScript.write_version,
        BumpScript.substVersion, hfs]
  · intro text bt hm
    simp [BumpScript.script_main, BumpScript.read_version, hm]

/-- Claim C8 witness: on a concrete manifest containing `version = "1.2.3"`
followed by a blank line, `--bump minor` rewrites that single occurrence to
`version = "1.3.0"`, prints `1.3.0` and exits 0 — the match span absorbs
the blank line, exactly as the Python regex does; and on a manifest with no
version line the script fails leaving the text unchanged. -/
theorem C8_version_bump_witness :
    BumpScript.script_main manifestText (some "minor") false =
      ⟨"[project]\nversion = \"1.3.0\"\n[build-system]\n", some "1.3.0", 0⟩ ∧
    BumpScript.script_main "[project]\n" (some "minor") false =
      ⟨"[project]\n", none, 1⟩ := by
  constructor
  · obtain ⟨nv, hbump, hnv, hcount, hrun⟩ :=
      C8_version_bump.1 manifestText "minor" "1.2.3" 1 2 3
        (Or.inr (Or.inl rfl)) rfl rfl
    have hnv' : nv = "1.3.0" := by rw [hnv]; rfl
    rw [hrun, hnv']
    rfl
  · exact C8_version_bump.2 "[project]\n" "minor" rfl

/-- Claim C9: the library fallback backend ignores its quality parameter:
for every library implementation, filesystem and pair of paths, two runs of
`compress_with_pypdf` that differ only in the quality argument return the
same result — the same output file content and the same size pair. -/
theorem C9_pypdf_ignores_quality {Doc Page : Type}
    (lib : Pypdf.PypdfLib Doc Page) (fs : Pypdf.FS)
    (input_path output_path : String) (q1 q2 : Int) :
    Pypdf.compress_with_pypdf lib fs input_path output_path q1 =
      Pypdf.compress_with_pypdf lib fs input_path output_path q2 :=
  rfl

/-- Claim C10: when `--current` is given, the script prints the current
version and exits 0 without changing the manifest, even when a `--bump`
option is also supplied. (The only precondition is that the manifest has a
version line at all: reading happens before the `--current` branch.) -/
theorem C10_current_prints_only (text : String) (bump : Option String)
    (v : String) (hv : BumpScript.read_version text = Except.ok v) :
    BumpScript.script_main text bump true = ⟨text, some v, 0⟩ := by
  unfold BumpScript.script_main
  rw [hv]
  rfl

/-- Claim C10 witness: on the concrete manifest, `--current` together with
`--bump minor` prints `1.2.3`, exits 0 and leaves the manifest unchanged. -/
theorem C10_current_prints_only_witness :
    BumpScript.script_main manifestText (some "minor") true =
      ⟨manifestText, some "1.2.3", 0⟩ :=
  C10_current_prints_only manifestText (some "minor") "1.2.3" rfl
